import Mathlib

/-!
Verification development for the pql_grammar repository (TEL/PQL expression
language). The embedding below translates the two source files
src/python/src/pql_grammar/from_pql.py (lifter) and
src/python/src/pql_grammar/to_pql.py (renderer) into Lean definitions.
The AST model module (model.py) and the ANTLR-generated parser are not part
of the repository snapshot; the corresponding definitions are modelled from
the specification of the data model and of the external parse-tree contract.
Python string primitives used by the source (str.upper, str.replace, int(),
float(), truthiness) are modelled explicitly over character lists.
-/

namespace TelGrammar

/-- The double-quote character (code 34). -/
def dq : Char := Char.ofNat 34

/-- The single-quote character (code 39). -/
def sq : Char := Char.ofNat 39

/-- The backslash character (code 92). -/
def bs : Char := Char.ofNat 92

/-- Modelled from the spec: Python str.upper on the ASCII operator tokens the
grammar produces, applied characterwise. -/
def pyCharUpper (c : Char) : Char :=
  if ('a' ≤ c ∧ c ≤ 'z') then Char.ofNat (c.toNat - 32) else c

/-- Modelled from the spec: Python str.upper (operator keywords are
normalized to upper case); ASCII-only, characterwise. -/
def pyUpper (s : String) : String :=
  String.mk (s.data.map pyCharUpper)

/-- Modelled from the spec: Python int() applied to grammar-produced numeric
text, restricted to plain digit strings (the syntax parser guarantees the
text of a NUMERIC_LITERAL has no sign). -/
def pyInt? (s : String) : Option Int :=
  if !s.data.isEmpty && s.data.all Char.isDigit then
    some ((s.data.foldl (fun a c => a * 10 + (c.toNat - 48)) (0 : Nat) : Nat) : Int)
  else none

/-- The accumulated numeric value of a list of decimal digit characters. -/
def digitsVal (l : List Char) : Nat :=
  l.foldl (fun a c => a * 10 + (c.toNat - 48)) 0

/-- Splits a character list at the first dot character, if any. -/
def breakDot : List Char → (List Char × Option (List Char))
  | [] => ([], none)
  | c :: cs =>
    if c = '.' then ([], some cs)
    else
      let (w, f) := breakDot cs
      (c :: w, f)

/-- Modelled from the spec: Python float() applied to grammar-produced
numeric text, restricted to plain decimal forms: an optional integer digit
part, an optional dot, an optional fraction digit part, with at least one
digit overall. Exponent forms are outside the modelled fragment. -/
def pyFloat? (s : String) : Option Rat :=
  match breakDot s.data with
  | (w, none) =>
    if !w.isEmpty && w.all Char.isDigit then some ((digitsVal w : Rat)) else none
  | (w, some f) =>
    if w.all Char.isDigit && f.all Char.isDigit && (!w.isEmpty || !f.isEmpty) then
      some ((digitsVal w : Rat) + (digitsVal f : Rat) / ((10 : Rat) ^ f.length))
    else none

/-- Modelled from the spec: the value slot of a Literal AST node (model.py is
absent from src). A literal value is one of null, boolean, integer, floating
point, or text; floating-point values are represented as rationals. -/
inductive Value where
  | null : Value
  | bool (b : Bool) : Value
  | int (n : Int) : Value
  | float (q : Rat) : Value
  | str (s : String) : Value
deriving DecidableEq, Repr

/-- Modelled from the spec: the AST node kinds of model.py (absent from src):
Literal(value, raw_text), Taxon(slug, namespace, is_optional, tag) and
Expr(operator, args). The renderer accesses the second Literal field as
raw_value; from_pql.py fills it positionally with the literal source text, so
it is the same field, named raw_text here as in the data-model description.
The field nspace renders the source name namespace, a reserved word here.
Function nodes are outside the modelled fragment. -/
inductive Node where
  | lit (value : Value) (raw_text : String) : Node
  | taxon (slug : String) (nspace : Option String) (is_optional : Bool) (tag : Option String) : Node
  | expr (operator : String) (args : List Node) : Node

mutual

/-- Decidable equality on AST nodes (componentwise). -/
def Node.decEq : (a b : Node) → Decidable (a = b)
  | .lit v1 r1, .lit v2 r2 =>
    if h : v1 = v2 ∧ r1 = r2 then isTrue (by rw [h.1, h.2])
    else isFalse (fun hh => by cases hh; exact h ⟨rfl, rfl⟩)
  | .lit _ _, .taxon _ _ _ _ => isFalse (fun h => Node.noConfusion h)
  | .lit _ _, .expr _ _ => isFalse (fun h => Node.noConfusion h)
  | .taxon _ _ _ _, .lit _ _ => isFalse (fun h => Node.noConfusion h)
  | .taxon s1 n1 o1 t1, .taxon s2 n2 o2 t2 =>
    if h : s1 = s2 ∧ n1 = n2 ∧ o1 = o2 ∧ t1 = t2 then
      isTrue (by rw [h.1, h.2.1, h.2.2.1, h.2.2.2])
    else isFalse (fun hh => by cases hh; exact h ⟨rfl, rfl, rfl, rfl⟩)
  | .taxon _ _ _ _, .expr _ _ => isFalse (fun h => Node.noConfusion h)
  | .expr _ _, .lit _ _ => isFalse (fun h => Node.noConfusion h)
  | .expr _ _, .taxon _ _ _ _ => isFalse (fun h => Node.noConfusion h)
  | .expr o1 a1, .expr o2 a2 =>
    if h : o1 = o2 then
      match Node.decEqList a1 a2 with
      | isTrue h2 => isTrue (by rw [h, h2])
      | isFalse h2 => isFalse (fun hh => by cases hh; exact h2 rfl)
    else isFalse (fun hh => by cases hh; exact h rfl)

/-- Decidable equality on lists of AST nodes (elementwise). -/
def Node.decEqList : (a b : List Node) → Decidable (a = b)
  | [], [] => isTrue rfl
  | [], _ :: _ => isFalse (fun h => List.noConfusion h)
  | _ :: _, [] => isFalse (fun h => List.noConfusion h)
  | a :: as, b :: bs =>
    match Node.decEq a b, Node.decEqList as bs with
    | isTrue h1, isTrue h2 => isTrue (by rw [h1, h2])
    | isFalse h1, _ => isFalse (fun h => by injection h; contradiction)
    | _, isFalse h2 => isFalse (fun h => by injection h; contradiction)

end

instance : DecidableEq Node := Node.decEq

instance {e a : Type} [DecidableEq e] [DecidableEq a] : DecidableEq (Except e a) := fun x y =>
  match x, y with
  | .ok v, .ok w =>
    if h : v = w then isTrue (by rw [h]) else isFalse (by intro hh; injection hh; contradiction)
  | .error v, .error w =>
    if h : v = w then isTrue (by rw [h]) else isFalse (by intro hh; injection hh; contradiction)
  | .ok _, .error _ => isFalse (by intro hh; injection hh)
  | .error _, .ok _ => isFalse (by intro hh; injection hh)

/-- Translation of the wrapper test in unquote (from_pql.py lines 58-61):
the string is nonempty and its first and last characters form a matching
pair of double quotes or of single quotes. -/
def hasWrapper (s : String) : Bool :=
  !s.isEmpty && ((s.front == dq && s.back == dq) || (s.front == sq && s.back == sq))

/-- Translation of the Python str.replace calls in unquote for the
two-character pattern backslash-q, replaced by the bare character q;
left-to-right, non-overlapping, as str.replace scans. -/
def replaceEsc (q : Char) : List Char → List Char
  | [] => []
  | [c] => [c]
  | c1 :: c2 :: cs =>
    if c1 = bs ∧ c2 = q then q :: replaceEsc q cs
    else c1 :: replaceEsc q (c2 :: cs)

/-- Whether a backslash immediately followed by the character q occurs in
the list (the occurrence test matching what replaceEsc rewrites). -/
def hasEscPair (q : Char) : List Char → Bool
  | [] => false
  | [_] => false
  | c1 :: c2 :: cs => (c1 = bs && c2 = q) || hasEscPair q (c2 :: cs)

/-- Translation of unquote (from_pql.py lines 52-68): empty text is returned
as is; a single matching outer pair of double or single quotes is stripped;
then backslash-escaped double quotes and backslash-escaped single quotes are
replaced by the bare quote (TEL style escapes), in that order. The escape
replacement is applied whether or not a wrapper was recognized. -/
def unquote (s : String) : String :=
  if s.isEmpty then s
  else
    let cs := if hasWrapper s then (s.data.drop 1).dropLast else s.data
    String.mk (replaceEsc sq (replaceEsc dq cs))

/-- Modelled from the spec: the literal-value parse-tree node of the external
grammar contract. Each constructor is one of the discriminator predicates
consulted by parse_literal_value (NUMERIC_LITERAL, DOUBLE_QUOTED_STRING,
SINGLE_QUOTED_STRING, K_NULL, K_TRUE and K_FALSE); the plain constructor is
a literal node matching none of them, for which parse_literal_value returns
the text itself. Each carries its full source text. -/
inductive LiteralCtx where
  | numeric (text : String)
  | dquoted (text : String)
  | squoted (text : String)
  | nullKw (text : String)
  | trueKw (text : String)
  | falseKw (text : String)
  | plain (text : String)
deriving DecidableEq, Repr

/-- The full source text of a literal-value parse-tree node (full_text(e)). -/
def litText : LiteralCtx → String
  | .numeric t => t
  | .dquoted t => t
  | .squoted t => t
  | .nullKw t => t
  | .trueKw t => t
  | .falseKw t => t
  | .plain t => t

/-- Translation of parse_literal_value (from_pql.py lines 124-155): null and
boolean keywords produce the corresponding values; numeric text is parsed as
an integer first and as a float second, failing with a ParseError when
neither succeeds; quoted text goes through unquote; any other literal text
is returned as is. -/
def parse_literal_value : LiteralCtx → Except String Value
  | .nullKw _ => .ok .null
  | .trueKw _ => .ok (.bool true)
  | .falseKw _ => .ok (.bool false)
  | .numeric t =>
    match pyInt? t with
    | some n => .ok (.int n)
    | none =>
      match pyFloat? t with
      | some q => .ok (.float q)
      | none => .error ("Could not convert SQL number " ++ t ++ " to native number representation.")
  | .dquoted t => .ok (.str (unquote t))
  | .squoted t => .ok (.str (unquote t))
  | .plain t => .ok (.str t)

/-- Translation of parse_literal (from_pql.py lines 117-122): a Literal node
carrying the coerced value and the full source text of the literal. -/
def parse_literal (e : LiteralCtx) : Except String Node :=
  match parse_literal_value e with
  | .error msg => .error msg
  | .ok v => .ok (.lit v (litText e))

/-- Modelled from the spec: the taxon parse-tree node of the external grammar
contract: slug text, optional namespace text, an optional-marker flag and
optional tag text. The marker flag is modelled directly as the boolean that
bool(e.is_optional) produces. -/
structure TaxonCtx where
  slug : String
  nspace : Option String
  is_optional : Bool
  tag : Option String
deriving DecidableEq, Repr

/-- Modelled from the spec: the expression parse-tree node of the external
grammar contract (§6). A node is exactly one of: a pure paren wrapper with an
inner child; a literal-value node; a unary-operator node with a right child;
an infix-operator node with a left child and either a single right child or
a right-hand list of children, plus an independent negation flag; or a taxon
node. Operator fields carry the source token text (full_text of the token).
Function-call nodes are outside the modelled fragment. -/
inductive Ctx where
  | paren (inner : Ctx)
  | literal (v : LiteralCtx)
  | unary (unary_operator : String) (right : Ctx)
  | binary (operator : String) (left : Ctx) (right : Ctx) (is_negated : Bool)
  | binaryList (operator : String) (left : Ctx) (right_list : List Ctx) (is_negated : Bool)
  | taxonC (t : TaxonCtx)

/-- Translation of unwrap_expr_parens (from_pql.py lines 73-84): recursively
strip pure paren-wrapper nodes, returning the first non-wrapper node. -/
def unwrap_expr_parens : Ctx → Ctx
  | .paren inner => unwrap_expr_parens inner
  | e => e

/-- Wraps an expression node in n pure paren-wrapper nodes. -/
def wrapParens : Nat → Ctx → Ctx
  | 0, e => e
  | n + 1, e => .paren (wrapParens n e)

/-- Translation of parse_taxon (from_pql.py lines 86-93): the Taxon node is
built from the full source texts of the slug, namespace and tag sub-nodes
and the boolean optional marker; no unquoting is applied to any field. -/
def parse_taxon (e : TaxonCtx) : Node :=
  .taxon e.slug e.nspace e.is_optional e.tag

mutual

/-- Modelled from the spec: full_text (from_pql.py lines 19-48) extracts the
exact source substring of a parse-tree node from the ANTLR token stream,
which is not part of the repository snapshot; here the substring is
reconstructed structurally, with one canonical spacing. -/
def fullText : Ctx → String
  | .paren inner => "(" ++ fullText inner ++ ")"
  | .literal v => litText v
  | .unary op r => op ++ fullText r
  | .binary op l r neg =>
    fullText l ++ (if neg then " NOT " else " ") ++ op ++ " " ++ fullText r
  | .binaryList op l rs neg =>
    fullText l ++ (if neg then " NOT " else " ") ++ op ++ " (" ++
      String.intercalate ", " (fullTextList rs) ++ ")"
  | .taxonC t =>
    (if t.is_optional then "?" else "") ++
      (match t.nspace with | some n => n ++ "|" | none => "") ++
      t.slug ++
      (match t.tag with | some tg => ":" ++ tg | none => "")

/-- Source texts of a list of parse-tree nodes, in order. -/
def fullTextList : List Ctx → List String
  | [] => []
  | c :: cs => fullText c :: fullTextList cs

end

/-- Translation of the numeric test isinstance(right.value, (int, float,
Decimal)) in the unary-minus fold (from_pql.py lines 177-181). In Python,
bool is a subclass of int, so boolean values satisfy this test as well. -/
def isNumericPy : Value → Bool
  | .int _ => true
  | .float _ => true
  | .bool _ => true
  | _ => false

/-- Whether a lifted node is a Literal whose value passes the numeric test of
the unary-minus fold: isinstance(right, ast.Literal) together with
isinstance(right.value, (int, float, Decimal)) (from_pql.py lines 177-181). -/
def isNumericLit : Node → Bool
  | .lit v _ => isNumericPy v
  | _ => false

/-- Translation of right.value * -1 (from_pql.py line 185) on values passing
isNumericPy; Python promotes a boolean to its integer value there. Other
values are returned unchanged (the fold never reaches them). -/
def mulNegOne : Value → Value
  | .int n => .int (n * -1)
  | .float q => .float (q * -1)
  | .bool b => .int ((if b then (1 : Int) else 0) * -1)
  | v => v

/-- Python truthiness, as used by `not right.value` in the unary-NOT fold
(from_pql.py line 194): None, False, zero and the empty string are falsy. -/
def pyTruthy : Value → Bool
  | .null => false
  | .bool b => b
  | .int n => n != 0
  | .float q => q != 0
  | .str s => s != ""

mutual

/-- Translation of parse_expr (from_pql.py lines 157-347). Pure paren
wrappers are stripped first (unwrap_expr_parens); then, in the priority
order of the source, the node is handled as a literal, a unary-operator
expression, an infix-operator expression, or a taxon. Exceptions raised by
the Python code are modelled as Except.error values; errors propagate in the
evaluation order of the source (for infix nodes the right side, line 235, is
parsed before the left side, line 319). In the BETWEEN branch the source
parses ctx.right a second time (line 257) after parsing the left side, which
is reproduced here. For a BETWEEN node carrying a right-hand list the source
would call parse_expr(None) and crash with an AttributeError, modelled as an
error value. -/
def parse_expr : Ctx → Except String Node
  | .paren inner => parse_expr inner
  | .literal v => parse_literal v
  | .unary unary_op r =>
    match parse_expr r with
    | .error e => .error e
    | .ok right =>
      let operator := pyUpper unary_op
      if operator = "+" then .ok right
      else
        match right with
        | .lit v _ =>
          if operator = "-" && isNumericPy v then
            .ok (.lit (mulNegOne v) (fullText (.unary unary_op r)))
          else if operator = "NOT" then
            let b := !(pyTruthy v)
            .ok (.lit (.bool b) (if b then "true" else "false"))
          else .ok (.expr operator [right])
        | _ => .ok (.expr operator [right])
  | .binary opTok l r neg =>
    let op := pyUpper opTok
    match parse_expr r with
    | .error e => .error e
    | .ok right1 =>
      if op = "BETWEEN" then
        match parse_expr l with
        | .error e => .error e
        | .ok left =>
          match parse_expr r with
          | .error e => .error e
          | .ok between_and =>
            match between_and with
            | .expr "AND" [b, c] =>
              if neg then
                .ok (.expr "OR" [.expr "<" [left, b], .expr ">" [left, c]])
              else
                .ok (.expr "AND" [.expr ">=" [left, b], .expr "<=" [left, c]])
            | _ =>
              .error ("Contents of BETWEEN AND expression - " ++ fullText r ++
                " - are not valid. Must be of form valueA AND valueB.")
      else
        match parse_expr l with
        | .error e => .error e
        | .ok left =>
          let ex := Node.expr op [left, right1]
          .ok (if neg then .expr "NOT" [ex] else ex)
  | .binaryList opTok l rs neg =>
    let op := pyUpper opTok
    match parse_expr_list rs with
    | .error e => .error e
    | .ok right =>
      if op = "BETWEEN" then
        match parse_expr l with
        | .error e => .error e
        | .ok _ =>
          .error "AttributeError: a BETWEEN node has no single right expression"
      else
        match parse_expr l with
        | .error e => .error e
        | .ok left =>
          let ex := Node.expr op (left :: right)
          .ok (if neg then .expr "NOT" [ex] else ex)
  | .taxonC t => .ok (parse_taxon t)

/-- Translation of the list comprehension over ctx.right_list.expr()
(from_pql.py lines 230-233): elements are lifted left to right and the
first error propagates. -/
def parse_expr_list : List Ctx → Except String (List Node)
  | [] => .ok []
  | c :: cs =>
    match parse_expr c with
    | .error e => .error e
    | .ok n =>
      match parse_expr_list cs with
      | .error e => .error e
      | .ok ns => .ok (n :: ns)

end

/-- Translation of the renderer (to_pql.py): to_tel dispatches on the node
kind exactly as the kind-to-renderer mapping does and applies the matching
str conversion. A Literal emits its raw text verbatim; a Taxon emits its
optional marker, namespace, slug and tag segments, the namespace and tag
segments subject to Python truthiness (an empty namespace or tag string
emits nothing); an Expr of arity 1 emits the operator, padding (none for +
and -) and the rendered operand; an Expr of arity at least 2 emits only its
first two arguments in parenthesized infix form. On an Expr with an empty
argument tuple the Python renderer would raise an IndexError; that
unreachable case returns the empty string here. -/
def to_tel : Node → String
  | .lit _ raw_text => raw_text
  | .taxon slug ns opt tag =>
    (if opt then "?" else "") ++
      (match ns with
       | some n => if n.isEmpty then "" else n ++ "|"
       | none => "") ++
      slug ++
      (match tag with
       | some t => if t.isEmpty then "" else ":" ++ t
       | none => "")
  | .expr op args =>
    match args with
    | [right] =>
      let padding := if op = "+" || op = "-" then "" else " "
      op ++ padding ++ to_tel right
    | left :: right :: _ =>
      "(" ++ to_tel left ++ " " ++ op ++ " " ++ to_tel right ++ ")"
    | [] => ""

/-- Whether a lift result is a success (an AST node was produced). -/
def isOkE : Except String Node → Bool
  | .ok _ => true
  | .error _ => false

/-- Whether a lift result is an Expr node with operator AND and exactly two
arguments, the shape the BETWEEN rewrite requires of its right side
(from_pql.py lines 259-263). -/
def liftsToAnd2 : Except String Node → Bool
  | .ok (.expr op args) => op == "AND" && args.length == 2
  | _ => false

/-! ## Helper lemmas -/

/-- Lifting strips one pure paren wrapper transparently. -/
theorem parse_expr_paren (e : Ctx) : parse_expr (.paren e) = parse_expr e := by
  simp [parse_expr]

/-- replaceEsc leaves a list without the escape pair unchanged. -/
theorem replaceEsc_no_pair (q : Char) :
    ∀ l, hasEscPair q l = false → replaceEsc q l = l
  | [], _ => rfl
  | [_], _ => rfl
  | c1 :: c2 :: cs, h => by
    simp only [hasEscPair, Bool.or_eq_false_iff] at h
    have hcond : ¬(c1 = bs ∧ c2 = q) := by
      intro hc
      obtain ⟨hb, hq⟩ := hc
      subst hb; subst hq
      simp at h
    simp only [replaceEsc, if_neg hcond, replaceEsc_no_pair q (c2 :: cs) h.2]

/-- replaceEsc never lengthens its input. -/
theorem replaceEsc_length (q : Char) :
    ∀ l, (replaceEsc q l).length ≤ l.length
  | [] => le_refl _
  | [_] => le_refl _
  | c1 :: c2 :: cs => by
    simp only [replaceEsc]
    split
    · have := replaceEsc_length q cs
      simp only [List.length_cons]
      omega
    · have := replaceEsc_length q (c2 :: cs)
      simp only [List.length_cons] at this ⊢
      omega

/-- unquote strictly shortens any string with a recognized quote wrapper,
so the result is never the input itself. -/
theorem unquote_ne_of_wrapper (s : String) (hw : hasWrapper s = true) :
    unquote s ≠ s := by
  have hne : s.isEmpty = false := by
    cases he : s.isEmpty with
    | false => rfl
    | true => rw [hasWrapper, he] at hw; simp at hw
  have hu : unquote s = String.mk (replaceEsc sq (replaceEsc dq ((s.data.drop 1).dropLast))) := by
    simp only [unquote, hne, hw]
    simp
  have hdata : 1 ≤ s.data.length := by
    cases s with
    | mk data =>
      cases data with
      | nil => exact absurd hne (by decide)
      | cons c cs => simp
  have h1 := replaceEsc_length dq ((s.data.drop 1).dropLast)
  have h2 := replaceEsc_length sq (replaceEsc dq ((s.data.drop 1).dropLast))
  have hd : ((s.data.drop 1).dropLast).length = s.data.length - 1 - 1 := by
    rw [List.length_dropLast, List.length_drop]
  intro heq
  have hlen : (unquote s).length = s.length := by rw [heq]
  rw [hu] at hlen
  have hmk : (String.mk (replaceEsc sq (replaceEsc dq ((s.data.drop 1).dropLast)))).length
      = (replaceEsc sq (replaceEsc dq ((s.data.drop 1).dropLast))).length := rfl
  have hsl : s.length = s.data.length := rfl
  rw [hmk, hsl] at hlen
  omega

/-! ## Claim theorems -/

/-- C1: lifting a BETWEEN node whose right side lifts to a two-argument AND
expression produces the desugared composite — AND of the two comparisons
for the positive form, OR of the two strict comparisons for the negated
form — and returns it immediately, so the negation flag is never wrapped in
an additional outer NOT expression. -/
theorem between_desugars (opTok : String) (l r : Ctx) (neg : Bool) (a b c : Node)
    (hop : pyUpper opTok = "BETWEEN")
    (hl : parse_expr l = .ok a)
    (hr : parse_expr r = .ok (.expr "AND" [b, c])) :
    parse_expr (.binary opTok l r neg) =
      .ok (if neg then .expr "OR" [.expr "<" [a, b], .expr ">" [a, c]]
           else .expr "AND" [.expr ">=" [a, b], .expr "<=" [a, c]]) := by
  simp [parse_expr, hop, hl, hr]
  cases neg <;> simp

/-- C1 witness: x between 1 AND 10 lifts to AND(>=(x,1), <=(x,10)). -/
theorem between_desugars_witness :
    (pyUpper "between" = "BETWEEN" ∧
      parse_expr (.taxonC ⟨"x", none, false, none⟩) = .ok (.taxon "x" none false none) ∧
      parse_expr (.binary "AND" (.literal (.numeric "1")) (.literal (.numeric "10")) false) =
        .ok (.expr "AND" [.lit (.int 1) "1", .lit (.int 10) "10"])) ∧
    parse_expr (.binary "between" (.taxonC ⟨"x", none, false, none⟩)
        (.binary "AND" (.literal (.numeric "1")) (.literal (.numeric "10")) false) false) =
      .ok (.expr "AND" [.expr ">=" [.taxon "x" none false none, .lit (.int 1) "1"],
                        .expr "<=" [.taxon "x" none false none, .lit (.int 10) "10"]]) := by
  refine ⟨⟨by decide, by decide, by decide⟩, ?_⟩
  have h := between_desugars "between" (.taxonC ⟨"x", none, false, none⟩)
    (.binary "AND" (.literal (.numeric "1")) (.literal (.numeric "10")) false) false
    (.taxon "x" none false none) (.lit (.int 1) "1") (.lit (.int 10) "10")
    (by decide) (by decide) (by decide)
  simpa using h

/-- C2: lifting a BETWEEN node whose right side does not lift to an Expr
with operator AND and exactly two arguments fails with an error and
produces no AST node. -/
theorem between_malformed_fails (opTok : String) (l r : Ctx) (neg : Bool)
    (hop : pyUpper opTok = "BETWEEN")
    (hr : liftsToAnd2 (parse_expr r) = false) :
    isOkE (parse_expr (.binary opTok l r neg)) = false := by
  cases h1 : parse_expr r with
  | error e => simp [parse_expr, hop, h1, isOkE]
  | ok n =>
    cases h2 : parse_expr l with
    | error e => simp [parse_expr, hop, h1, h2, isOkE]
    | ok a =>
      rw [h1] at hr
      simp only [parse_expr, hop, h1, h2]
      simp only [reduceIte]
      split
      · simp [liftsToAnd2] at hr
      · simp [isOkE]

/-- C2 witness: x BETWEEN 1, whose right side lifts to the literal 1 rather
than a two-argument AND, produces no AST node. -/
theorem between_malformed_fails_witness :
    (pyUpper "BETWEEN" = "BETWEEN" ∧
      liftsToAnd2 (parse_expr (.literal (.numeric "1"))) = false) ∧
    isOkE (parse_expr (.binary "BETWEEN" (.taxonC ⟨"x", none, false, none⟩)
      (.literal (.numeric "1")) false)) = false :=
  ⟨⟨by decide, by decide⟩,
    between_malformed_fails "BETWEEN" (.taxonC ⟨"x", none, false, none⟩)
      (.literal (.numeric "1")) false (by decide) (by decide)⟩

/-- C3 counterexample: the two-character string backslash single-quote has
no recognized wrapper, yet unquote rewrites it to a bare single quote
rather than returning it unchanged, because the escape replacement applies
regardless of the wrapper. -/
theorem unquote_unchanged_cex :
    hasWrapper (String.mk [bs, sq]) = false ∧
    unquote (String.mk [bs, sq]) ≠ String.mk [bs, sq] := by decide

/-- C3 amended: an input string with no recognized wrapper and no
backslash-escaped double or single quote is returned unchanged by unquote
(without the escape-freedom condition the escape replacement still
rewrites the string). -/
theorem unquote_no_wrapper_no_escapes (s : String)
    (hw : hasWrapper s = false)
    (h1 : hasEscPair dq s.data = false)
    (h2 : hasEscPair sq s.data = false) :
    unquote s = s := by
  by_cases he : s.isEmpty
  · simp [unquote, he]
  · simp only [unquote, he, hw]
    simp only [Bool.false_eq_true, if_false]
    rw [replaceEsc_no_pair dq s.data h1, replaceEsc_no_pair sq s.data h2]

/-- C3 amended witness: a plain unwrapped, escape-free string is returned
unchanged. -/
theorem unquote_no_wrapper_no_escapes_witness :
    (hasWrapper "abc" = false ∧ hasEscPair dq "abc".data = false ∧
      hasEscPair sq "abc".data = false) ∧
    unquote "abc" = "abc" :=
  ⟨⟨by decide, by decide, by decide⟩,
    unquote_no_wrapper_no_escapes "abc" (by decide) (by decide) (by decide)⟩

/-- C4 counterexample: the lifted right operand of - true is the boolean
Literal true, whose value is not numeric in the data-model sense, yet
lifting folds it into the integer Literal -1 (Python bool is an int
subclass, so it passes the isinstance numeric test) instead of producing
the unary Expr. -/
theorem unary_minus_bool_cex :
    parse_expr (.unary "-" (.literal (.trueKw "true"))) = .ok (.lit (.int (-1)) "-true") ∧
    parse_expr (.unary "-" (.literal (.trueKw "true"))) ≠
      .ok (.expr "-" [.lit (.bool true) "true"]) := by decide

/-- C4 amended: for every unary minus node whose lifted right operand is
not a Literal passing the Python numeric test (integer, float, or boolean,
since Python bool is an int subclass) — including any non-Literal node —
lifting produces the explicit unary node Expr with operator - and the
operand as sole argument. -/
theorem unary_minus_fallthrough (opTok : String) (r : Ctx) (n : Node)
    (hop : pyUpper opTok = "-")
    (hr : parse_expr r = .ok n)
    (hn : isNumericLit n = false) :
    parse_expr (.unary opTok r) = .ok (.expr "-" [n]) := by
  cases n with
  | lit v raw =>
    simp only [isNumericLit] at hn
    simp [parse_expr, hr, hop, hn]
  | taxon s ns opt tg => simp [parse_expr, hr, hop]
  | expr op args => simp [parse_expr, hr, hop]

/-- C4 amended witness: minus over the null literal falls through to the
explicit unary node. -/
theorem unary_minus_fallthrough_witness :
    (pyUpper "-" = "-" ∧ parse_expr (.literal (.nullKw "null")) = .ok (.lit .null "null") ∧
      isNumericLit (.lit .null "null") = false) ∧
    parse_expr (.unary "-" (.literal (.nullKw "null"))) = .ok (.expr "-" [.lit .null "null"]) :=
  ⟨⟨by decide, by decide, by decide⟩,
    unary_minus_fallthrough "-" (.literal (.nullKw "null")) (.lit .null "null")
      (by decide) (by decide) (by decide)⟩

/-- C5: lifting an expression wrapped in any number of pure paren-wrapper
nodes yields an AST structurally identical to lifting the unwrapped
expression. -/
theorem paren_idempotence (n : Nat) (e : Ctx) :
    parse_expr (wrapParens n e) = parse_expr e := by
  induction n with
  | zero => rfl
  | succ k ih => rw [wrapParens, parse_expr_paren, ih]

/-- C6: lifting unary plus returns exactly the AST of the operand; the +
operator is never represented in the AST (including error propagation when
the operand itself fails to lift). -/
theorem unary_plus_eliminated (r : Ctx) :
    parse_expr (.unary "+" r) = parse_expr r := by
  cases h : parse_expr r with
  | error e => simp [parse_expr, h]
  | ok n => simp [parse_expr, h, pyUpper, pyCharUpper]

/-- C7: lifting an infix node with a right-hand list (IN-style) yields an
Expr carrying the left operand and every list element in order, but
rendering an Expr of arity at least two consults only the first two
arguments, producing the parenthesized infix form of those two alone. -/
theorem in_list_lift_render (opTok : String) (l : Ctx) (rs : List Ctx)
    (a n1 n2 : Node) (rest : List Node)
    (hop : pyUpper opTok ≠ "BETWEEN")
    (hl : parse_expr l = .ok a)
    (hrs : parse_expr_list rs = .ok (n1 :: n2 :: rest)) :
    parse_expr (.binaryList opTok l rs false) =
      .ok (.expr (pyUpper opTok) (a :: n1 :: n2 :: rest)) ∧
    to_tel (.expr (pyUpper opTok) (a :: n1 :: n2 :: rest)) =
      "(" ++ to_tel a ++ " " ++ pyUpper opTok ++ " " ++ to_tel n1 ++ ")" ∧
    (∀ (o : String) (x y : Node) (zs : List Node),
      to_tel (.expr o (x :: y :: zs)) =
        "(" ++ to_tel x ++ " " ++ o ++ " " ++ to_tel y ++ ")") := by
  refine ⟨?_, ?_, ?_⟩
  · simp [parse_expr, hrs, hl, hop]
  · simp [to_tel]
  · intro o x y zs
    simp [to_tel]

/-- C7 witness: x IN (1,2,3) lifts to Expr(IN,(x,1,2,3)) and renders as
(x IN 1). -/
theorem in_list_lift_render_witness :
    parse_expr (.binaryList "IN" (.taxonC ⟨"x", none, false, none⟩)
        [.literal (.numeric "1"), .literal (.numeric "2"), .literal (.numeric "3")] false) =
      .ok (.expr "IN" [.taxon "x" none false none, .lit (.int 1) "1",
                       .lit (.int 2) "2", .lit (.int 3) "3"]) ∧
    to_tel (.expr "IN" [.taxon "x" none false none, .lit (.int 1) "1",
                        .lit (.int 2) "2", .lit (.int 3) "3"]) = "(x IN 1)" := by
  have h := in_list_lift_render "IN" (.taxonC ⟨"x", none, false, none⟩)
    [.literal (.numeric "1"), .literal (.numeric "2"), .literal (.numeric "3")]
    (.taxon "x" none false none) (.lit (.int 1) "1") (.lit (.int 2) "2") [.lit (.int 3) "3"]
    (by decide) (by decide) (by decide)
  have e : pyUpper "IN" = "IN" := by decide
  rw [e] at h
  exact ⟨h.1, by decide⟩

/-- C8: every Literal node produced by the lifter renders to exactly its
raw_text field. -/
theorem literal_renders_raw (ctx : Ctx) (v : Value) (raw : String)
    (_h : parse_expr ctx = .ok (.lit v raw)) :
    to_tel (.lit v raw) = raw := by
  simp [to_tel]

/-- C8 witness: the lifter produces Literal(5, "5") from the numeric text 5
and it renders back to "5". -/
theorem literal_renders_raw_witness :
    parse_expr (.literal (.numeric "5")) = .ok (.lit (.int 5) "5") ∧
    to_tel (.lit (.int 5) "5") = "5" :=
  ⟨by decide, literal_renders_raw (.literal (.numeric "5")) (.int 5) "5" (by decide)⟩

/-- C9 counterexample: lifting a taxon whose slug text is a double-quoted
identifier keeps the quote wrapper in the slug field; the claimed
application of unquote would have stripped it. -/
theorem parse_taxon_unquote_cex :
    parse_taxon ⟨String.mk [dq, 'a', dq], none, false, none⟩ ≠
      Node.taxon (unquote (String.mk [dq, 'a', dq])) none false none := by decide

/-- C9 amended: lifting a taxon copies the slug, namespace and tag source
texts verbatim into the Taxon node; unquote is not applied, so whenever the
slug text carries a recognized quote wrapper the produced node differs from
the node the claim describes. -/
theorem parse_taxon_verbatim (s : String) (ns : Option String) (opt : Bool) (tg : Option String)
    (hw : hasWrapper s = true) :
    parse_taxon ⟨s, ns, opt, tg⟩ = Node.taxon s ns opt tg ∧
      Node.taxon s ns opt tg ≠ Node.taxon (unquote s) ns opt tg := by
  refine ⟨rfl, ?_⟩
  intro h
  injection h with h1 _
  exact unquote_ne_of_wrapper s hw h1.symm

/-- C9 amended witness: a double-quoted slug is copied verbatim and differs
from its unquoted form. -/
theorem parse_taxon_verbatim_witness :
    hasWrapper (String.mk [dq, 'b', dq]) = true ∧
    (parse_taxon ⟨String.mk [dq, 'b', dq], none, false, none⟩ =
        Node.taxon (String.mk [dq, 'b', dq]) none false none ∧
      Node.taxon (String.mk [dq, 'b', dq]) none false none ≠
        Node.taxon (unquote (String.mk [dq, 'b', dq])) none false none) :=
  ⟨by decide, parse_taxon_verbatim (String.mk [dq, 'b', dq]) none false none (by decide)⟩

/-- C10: unquote of the one-character string consisting of a single double
quote (or a single single quote) is the empty string: the lone character is
both the first and last character, so it is treated as a matching wrapper
pair and stripped. -/
theorem unquote_single_quote_char :
    unquote (String.mk [dq]) = "" ∧ unquote (String.mk [sq]) = "" := by decide

end TelGrammar
